import Mathlib

/-!
Shallow embedding of `src/ops/tree/tui/state.rs` from cargo-tree-tui:
the interactive TUI state machine (key dispatch, search engine, cursor
cycling).  Strings are modelled as `List Char` (Rust `String::push` is
list append, `String::pop` is `dropLast`); lower-casing is modelled
per-character by `Char.toLower`.  The dependency tree is its node list
(only `nodes.iter().enumerate()` and `node.name` are consumed).  The
tree-widget collaborator is external to this core: its state is a
`selected` field (read and written directly by the search engine, as in
the source) together with abstract auxiliary data, and its navigation
operations (`select_next`, `page_up`, ...) are abstract functions
supplied as an environment, universally quantified in every theorem.
-/

namespace CargoTreeTui

/-- A node of the dependency tree; this core reads only its display name. -/
structure Node where
  name : List Char
deriving Repr, DecidableEq

/-- The dependency tree as consumed here: an indexable node collection.
`NodeId` is the storage index (Rust `NodeId(usize)` is modelled as `Nat`). -/
structure DependencyTree where
  nodes : List Node
deriving Repr, DecidableEq

/-- The tree-widget collaborator's state: the `selected` field is accessed
directly by this core; everything else (expand set, viewport) is opaque
auxiliary data of type `A`. -/
structure TreeWidgetState (A : Type) where
  selected : Option Nat
  aux : A
deriving Repr, DecidableEq

/-- The navigation operations of the external tree-widget collaborator,
abstract to this core (they live in `widget.rs`, outside this state machine). -/
structure WidgetOps (A : Type) where
  select_next : DependencyTree → TreeWidgetState A → TreeWidgetState A
  select_previous : DependencyTree → TreeWidgetState A → TreeWidgetState A
  select_parent : DependencyTree → TreeWidgetState A → TreeWidgetState A
  select_next_sibling : DependencyTree → TreeWidgetState A → TreeWidgetState A
  select_previous_sibling : DependencyTree → TreeWidgetState A → TreeWidgetState A
  page_up : DependencyTree → TreeWidgetState A → TreeWidgetState A
  page_down : DependencyTree → TreeWidgetState A → TreeWidgetState A
  expand : DependencyTree → TreeWidgetState A → TreeWidgetState A
  collapse : DependencyTree → TreeWidgetState A → TreeWidgetState A

/-- Rust `crossterm::event::KeyCode`, restricted to the constructors the dispatcher
distinguishes; `other` stands for every remaining key code. -/
inductive KeyCode where
  | enter | esc | backspace
  | char (c : Char)
  | down | up | pageDown | pageUp | right | left
  | other
deriving Repr, DecidableEq

/-- Rust `crossterm::event::KeyEvent`: a key code plus a modifier bit set
(`KeyModifiers` is a bitflag byte, modelled as `Nat`). -/
structure KeyEvent where
  code : KeyCode
  modifiers : Nat
deriving Repr, DecidableEq

/-- The `TuiState` struct from `state.rs`. -/
structure TuiState (A : Type) where
  running : Bool
  dependency_tree : DependencyTree
  tree_widget_state : TreeWidgetState A
  show_help : Bool
  search_active : Bool
  search_query : List Char
  search_results : List Nat
  search_result_index : Option Nat
deriving Repr, DecidableEq

/-- The greedy scan inside `is_subsequence_match`: walk the haystack once,
advancing past the current needle character on each equality; return the
needle characters not yet consumed (the Rust code succeeds iff none remain). -/
def consumeGreedy : List Char → List Char → List Char
  | needle, [] => needle
  | [], _ :: _ => []
  | n :: ns, h :: hs => if n = h then consumeGreedy ns hs else consumeGreedy (n :: ns) hs

/-- Rust `TuiState::is_subsequence_match`: lower-case both strings, then check
that the needle is consumed by the greedy one-pass scan over the haystack. -/
def is_subsequence_match (needle haystack : List Char) : Bool :=
  (consumeGreedy (needle.map Char.toLower) (haystack.map Char.toLower)).isEmpty

/-- The search loop of `perform_search`: iterate the node collection with its
enumeration index, pushing the index of every node whose name matches. -/
def searchNodes (query : List Char) (index : Nat) : List Node → List Nat
  | [] => []
  | node :: rest =>
      if is_subsequence_match query node.name then
        index :: searchNodes query (index + 1) rest
      else
        searchNodes query (index + 1) rest

/-- Rust `TuiState::perform_search`: empty query clears results and index and
returns early; otherwise recompute the match list over all nodes, set the
index to `Some 0` iff non-empty, and select the first match if there is one. -/
def perform_search {A : Type} (s : TuiState A) : TuiState A :=
  if s.search_query.isEmpty then
    { s with search_results := [], search_result_index := none }
  else
    let results := searchNodes s.search_query 0 s.dependency_tree.nodes
    let s1 : TuiState A :=
      { s with search_results := results,
               search_result_index := if results.isEmpty then none else some 0 }
    match s1.search_results.head? with
    | some first_match =>
        { s1 with tree_widget_state := { s1.tree_widget_state with selected := some first_match } }
    | none => s1

/-- Rust `TuiState::next_search_result`. -/
def next_search_result {A : Type} (s : TuiState A) : TuiState A :=
  if s.search_results.isEmpty then s
  else
    match s.search_result_index with
    | none => s
    | some current_index =>
        let next_index := (current_index + 1) % s.search_results.length
        let s1 : TuiState A := { s with search_result_index := some next_index }
        match s1.search_results.get? next_index with
        | some node_id =>
            { s1 with tree_widget_state := { s1.tree_widget_state with selected := some node_id } }
        | none => s1

/-- Rust `TuiState::prev_search_result`. -/
def prev_search_result {A : Type} (s : TuiState A) : TuiState A :=
  if s.search_results.isEmpty then s
  else
    match s.search_result_index with
    | none => s
    | some current_index =>
        let prev_index :=
          if current_index = 0 then s.search_results.length - 1 else current_index - 1
        let s1 : TuiState A := { s with search_result_index := some prev_index }
        match s1.search_results.get? prev_index with
        | some node_id =>
            { s1 with tree_widget_state := { s1.tree_widget_state with selected := some node_id } }
        | none => s1

/-- Rust `TuiState::clear_search`. -/
def clear_search {A : Type} (s : TuiState A) : TuiState A :=
  { s with search_active := false, search_query := [],
           search_results := [], search_result_index := none }

/-- The unconditional pre-step of `handle_key_event`: any key press closes
the help popup. -/
def dismissHelp {A : Type} (s : TuiState A) : TuiState A :=
  if s.show_help then { s with show_help := false } else s

/-- The normal-mode dispatch on a printable character, transliterating the
`KeyCode::Char(_)` arms of the Rust match in their source order (a match on
character literals is an equality chain). -/
def normalCharDispatch {A : Type} (ops : WidgetOps A) (s : TuiState A) (c : Char) : TuiState A :=
  if c = '/' then
    { s with search_active := true, search_query := [], search_result_index := none }
  else if c = 'n' then next_search_result s
  else if c = 'N' then prev_search_result s
  else if c = 'c' then clear_search s
  else if c = 'q' then { s with running := false }
  else if c = '?' then { s with show_help := !s.show_help }
  else if c = 'p' then
    { s with tree_widget_state := ops.select_parent s.dependency_tree s.tree_widget_state }
  else if c = ']' then
    { s with tree_widget_state := ops.select_next_sibling s.dependency_tree s.tree_widget_state }
  else if c = '[' then
    { s with tree_widget_state :=
        ops.select_previous_sibling s.dependency_tree s.tree_widget_state }
  else s

/-- Rust `TuiState::handle_key_event`, the single mutating entry point: help
pre-step, then search-mode dispatch or normal-mode dispatch on
`(key_event.code, key_event.modifiers)` (every arm of the source match
binds the modifiers with a wildcard and ignores them). -/
def handle_key_event {A : Type} (ops : WidgetOps A) (s0 : TuiState A)
    (key_event : KeyEvent) : TuiState A :=
  let s := dismissHelp s0
  if s.search_active then
    match key_event.code, key_event.modifiers with
    | .enter, _ => { s with search_active := false }
    | .esc, _ => clear_search s
    | .backspace, _ => perform_search { s with search_query := s.search_query.dropLast }
    | .char c, _ =>
        if c ≠ '/' then perform_search { s with search_query := s.search_query ++ [c] }
        else s
    | .down, _ => next_search_result s
    | .up, _ => prev_search_result s
    | _, _ => s
  else
    match key_event.code, key_event.modifiers with
    | .char c, _ => normalCharDispatch ops s c
    | .down, _ =>
        if s.search_active then next_search_result s
        else { s with tree_widget_state := ops.select_next s.dependency_tree s.tree_widget_state }
    | .up, _ =>
        if s.search_active then prev_search_result s
        else
          { s with tree_widget_state := ops.select_previous s.dependency_tree s.tree_widget_state }
    | .pageDown, _ =>
        { s with tree_widget_state := ops.page_down s.dependency_tree s.tree_widget_state }
    | .pageUp, _ =>
        { s with tree_widget_state := ops.page_up s.dependency_tree s.tree_widget_state }
    | .right, _ =>
        { s with tree_widget_state := ops.expand s.dependency_tree s.tree_widget_state }
    | .left, _ =>
        { s with tree_widget_state := ops.collapse s.dependency_tree s.tree_widget_state }
    | _, _ => s

/-- The state produced by `TuiState::new`: running, help and search fields at
their cleared defaults.  The widget state (Rust: `default()` followed by
`expand_all`) is external, so it is an arbitrary parameter `w0`. -/
def initState {A : Type} (tree : DependencyTree) (w0 : TreeWidgetState A) : TuiState A :=
  { running := true, dependency_tree := tree, tree_widget_state := w0,
    show_help := false, search_active := false, search_query := [],
    search_results := [], search_result_index := none }

/-- Run a sequence of key events from a starting state. -/
def runEvents {A : Type} (ops : WidgetOps A) (s : TuiState A)
    (events : List KeyEvent) : TuiState A :=
  events.foldl (handle_key_event ops) s

/-- A concrete environment used to instantiate the universally quantified
widget collaborator in witnesses: every navigation operation is the identity. -/
def idOps : WidgetOps Unit :=
  ⟨fun _ w => w, fun _ w => w, fun _ w => w, fun _ w => w, fun _ w => w,
   fun _ w => w, fun _ w => w, fun _ w => w, fun _ w => w⟩

/-! ### Frame lemmas: which fields each operation leaves untouched. -/

@[simp] theorem dismissHelp_running {A : Type} (s : TuiState A) :
    (dismissHelp s).running = s.running := by
  unfold dismissHelp; split <;> rfl

@[simp] theorem dismissHelp_search_active {A : Type} (s : TuiState A) :
    (dismissHelp s).search_active = s.search_active := by
  unfold dismissHelp; split <;> rfl

@[simp] theorem dismissHelp_search_query {A : Type} (s : TuiState A) :
    (dismissHelp s).search_query = s.search_query := by
  unfold dismissHelp; split <;> rfl

@[simp] theorem dismissHelp_search_results {A : Type} (s : TuiState A) :
    (dismissHelp s).search_results = s.search_results := by
  unfold dismissHelp; split <;> rfl

@[simp] theorem dismissHelp_search_result_index {A : Type} (s : TuiState A) :
    (dismissHelp s).search_result_index = s.search_result_index := by
  unfold dismissHelp; split <;> rfl

@[simp] theorem dismissHelp_tree_widget_state {A : Type} (s : TuiState A) :
    (dismissHelp s).tree_widget_state = s.tree_widget_state := by
  unfold dismissHelp; split <;> rfl

@[simp] theorem dismissHelp_dependency_tree {A : Type} (s : TuiState A) :
    (dismissHelp s).dependency_tree = s.dependency_tree := by
  unfold dismissHelp; split <;> rfl

@[simp] theorem perform_search_running {A : Type} (s : TuiState A) :
    (perform_search s).running = s.running := by
  unfold perform_search; split
  · rfl
  · dsimp only; split <;> rfl

@[simp] theorem perform_search_show_help {A : Type} (s : TuiState A) :
    (perform_search s).show_help = s.show_help := by
  unfold perform_search; split
  · rfl
  · dsimp only; split <;> rfl

@[simp] theorem perform_search_search_active {A : Type} (s : TuiState A) :
    (perform_search s).search_active = s.search_active := by
  unfold perform_search; split
  · rfl
  · dsimp only; split <;> rfl

@[simp] theorem perform_search_search_query {A : Type} (s : TuiState A) :
    (perform_search s).search_query = s.search_query := by
  unfold perform_search; split
  · rfl
  · dsimp only; split <;> rfl

@[simp] theorem next_search_result_running {A : Type} (s : TuiState A) :
    (next_search_result s).running = s.running := by
  unfold next_search_result; split
  · rfl
  · split
    · rfl
    · dsimp only; split <;> rfl

@[simp] theorem next_search_result_show_help {A : Type} (s : TuiState A) :
    (next_search_result s).show_help = s.show_help := by
  unfold next_search_result; split
  · rfl
  · split
    · rfl
    · dsimp only; split <;> rfl

@[simp] theorem next_search_result_search_active {A : Type} (s : TuiState A) :
    (next_search_result s).search_active = s.search_active := by
  unfold next_search_result; split
  · rfl
  · split
    · rfl
    · dsimp only; split <;> rfl

@[simp] theorem next_search_result_search_query {A : Type} (s : TuiState A) :
    (next_search_result s).search_query = s.search_query := by
  unfold next_search_result; split
  · rfl
  · split
    · rfl
    · dsimp only; split <;> rfl

@[simp] theorem next_search_result_search_results {A : Type} (s : TuiState A) :
    (next_search_result s).search_results = s.search_results := by
  unfold next_search_result; split
  · rfl
  · split
    · rfl
    · dsimp only; split <;> rfl

@[simp] theorem prev_search_result_running {A : Type} (s : TuiState A) :
    (prev_search_result s).running = s.running := by
  unfold prev_search_result; split
  · rfl
  · split
    · rfl
    · dsimp only; split <;> rfl

@[simp] theorem prev_search_result_show_help {A : Type} (s : TuiState A) :
    (prev_search_result s).show_help = s.show_help := by
  unfold prev_search_result; split
  · rfl
  · split
    · rfl
    · dsimp only; split <;> rfl

@[simp] theorem prev_search_result_search_active {A : Type} (s : TuiState A) :
    (prev_search_result s).search_active = s.search_active := by
  unfold prev_search_result; split
  · rfl
  · split
    · rfl
    · dsimp only; split <;> rfl

@[simp] theorem prev_search_result_search_query {A : Type} (s : TuiState A) :
    (prev_search_result s).search_query = s.search_query := by
  unfold prev_search_result; split
  · rfl
  · split
    · rfl
    · dsimp only; split <;> rfl

@[simp] theorem prev_search_result_search_results {A : Type} (s : TuiState A) :
    (prev_search_result s).search_results = s.search_results := by
  unfold prev_search_result; split
  · rfl
  · split
    · rfl
    · dsimp only; split <;> rfl

@[simp] theorem clear_search_running {A : Type} (s : TuiState A) :
    (clear_search s).running = s.running := rfl

@[simp] theorem clear_search_show_help {A : Type} (s : TuiState A) :
    (clear_search s).show_help = s.show_help := rfl

@[simp] theorem clear_search_tree_widget_state {A : Type} (s : TuiState A) :
    (clear_search s).tree_widget_state = s.tree_widget_state := rfl

/-! ### Correctness of the greedy subsequence scan. -/

theorem consumeGreedy_eq_nil_iff :
    ∀ (h n : List Char), consumeGreedy n h = [] ↔ List.Sublist n h
  | [], n => by
      cases n with
      | nil => simp [consumeGreedy]
      | cons b ns => simp [consumeGreedy]
  | a :: hs, n => by
      cases n with
      | nil =>
          simp only [consumeGreedy, true_iff]
          exact List.nil_sublist _
      | cons b ns =>
          by_cases hba : b = a
          · subst hba
            rw [consumeGreedy, if_pos rfl, consumeGreedy_eq_nil_iff hs ns]
            exact List.cons_sublist_cons.symm
          · rw [consumeGreedy, if_neg hba, consumeGreedy_eq_nil_iff hs (b :: ns)]
            constructor
            · exact fun h => h.cons a
            · intro h
              rcases List.cons_sublist_cons'.mp h with h' | ⟨hba', _⟩
              · exact h'
              · exact absurd hba' hba

/-! ### The search loop: membership and ordering of the result list. -/

theorem mem_searchNodes (q : List Char) :
    ∀ (l : List Node) (k j : Nat),
      j ∈ searchNodes q k l ↔
        ∃ d node, j = k + d ∧ l.get? d = some node ∧
          is_subsequence_match q node.name = true
  | [], k, j => by simp [searchNodes]
  | node :: rest, k, j => by
      rw [searchNodes]
      split
      · next hm =>
          simp only [List.mem_cons, mem_searchNodes q rest (k + 1) j]
          constructor
          · rintro (rfl | ⟨d, nd, rfl, hg, hmatch⟩)
            · exact ⟨0, node, by omega, rfl, hm⟩
            · exact ⟨d + 1, nd, by omega, by simpa using hg, hmatch⟩
          · rintro ⟨d, nd, rfl, hg, hmatch⟩
            cases d with
            | zero => left; omega
            | succ d =>
                right
                exact ⟨d, nd, by omega, by simpa using hg, hmatch⟩
      · next hm =>
          rw [mem_searchNodes q rest (k + 1) j]
          constructor
          · rintro ⟨d, nd, rfl, hg, hmatch⟩
            exact ⟨d + 1, nd, by omega, by simpa using hg, hmatch⟩
          · rintro ⟨d, nd, rfl, hg, hmatch⟩
            cases d with
            | zero =>
                simp only [List.get?] at hg
                cases hg
                exact absurd hmatch hm
            | succ d =>
                exact ⟨d, nd, by omega, by simpa using hg, hmatch⟩

theorem le_of_mem_searchNodes (q : List Char) (l : List Node) (k j : Nat)
    (h : j ∈ searchNodes q k l) : k ≤ j := by
  rcases (mem_searchNodes q l k j).mp h with ⟨d, _, rfl, _, _⟩
  omega

theorem searchNodes_pairwise (q : List Char) :
    ∀ (l : List Node) (k : Nat), (searchNodes q k l).Pairwise (· < ·)
  | [], k => by simp [searchNodes]
  | node :: rest, k => by
      rw [searchNodes]
      split
      · refine List.Pairwise.cons ?_ (searchNodes_pairwise q rest (k + 1))
        intro j hj
        have := le_of_mem_searchNodes q rest (k + 1) j hj
        omega
      · exact searchNodes_pairwise q rest (k + 1)

/-! ### Characterization of perform_search. -/

theorem perform_search_of_empty {A : Type} (s : TuiState A) (h : s.search_query = []) :
    perform_search s = { s with search_results := [], search_result_index := none } := by
  unfold perform_search
  rw [if_pos (by simp [h])]

theorem perform_search_of_nil {A : Type} (s : TuiState A) (h : s.search_query ≠ [])
    (hr : searchNodes s.search_query 0 s.dependency_tree.nodes = []) :
    perform_search s = { s with search_results := [], search_result_index := none } := by
  unfold perform_search
  rw [if_neg (by simp [h])]
  simp only [hr]
  rfl

theorem perform_search_of_cons {A : Type} (s : TuiState A) (h : s.search_query ≠ [])
    (m : Nat) (rest : List Nat)
    (hr : searchNodes s.search_query 0 s.dependency_tree.nodes = m :: rest) :
    perform_search s =
      { s with search_results := m :: rest, search_result_index := some 0,
               tree_widget_state := { s.tree_widget_state with selected := some m } } := by
  unfold perform_search
  rw [if_neg (by simp [h])]
  simp only [hr]
  rfl

theorem perform_search_results_eq {A : Type} (s : TuiState A) (h : s.search_query ≠ []) :
    (perform_search s).search_results =
      searchNodes s.search_query 0 s.dependency_tree.nodes := by
  cases hr : searchNodes s.search_query 0 s.dependency_tree.nodes with
  | nil => rw [perform_search_of_nil s h hr]
  | cons m rest => rw [perform_search_of_cons s h m rest hr]

/-! ### Characterization of the cyclic cursor moves. -/

theorem next_search_result_of_nil {A : Type} (s : TuiState A)
    (h : s.search_results = []) : next_search_result s = s := by
  unfold next_search_result
  rw [if_pos (by simp [h])]

theorem next_search_result_of_none {A : Type} (s : TuiState A)
    (h : s.search_result_index = none) : next_search_result s = s := by
  unfold next_search_result
  split
  · rfl
  · rw [h]

theorem prev_search_result_of_nil {A : Type} (s : TuiState A)
    (h : s.search_results = []) : prev_search_result s = s := by
  unfold prev_search_result
  rw [if_pos (by simp [h])]

theorem prev_search_result_of_none {A : Type} (s : TuiState A)
    (h : s.search_result_index = none) : prev_search_result s = s := by
  unfold prev_search_result
  split
  · rfl
  · rw [h]

theorem next_search_result_of_some {A : Type} (s : TuiState A) (i : Nat)
    (hne : s.search_results ≠ []) (hi : s.search_result_index = some i) :
    ∃ m, s.search_results.get? ((i + 1) % s.search_results.length) = some m ∧
      next_search_result s =
        { s with search_result_index := some ((i + 1) % s.search_results.length),
                 tree_widget_state := { s.tree_widget_state with selected := some m } } := by
  have hlen : 0 < s.search_results.length := List.length_pos.mpr hne
  have hlt : (i + 1) % s.search_results.length < s.search_results.length :=
    Nat.mod_lt _ hlen
  obtain ⟨m, hm⟩ : ∃ m, s.search_results.get? ((i + 1) % s.search_results.length) = some m :=
    ⟨s.search_results.get ⟨_, hlt⟩, List.get?_eq_get hlt⟩
  refine ⟨m, hm, ?_⟩
  unfold next_search_result
  rw [if_neg (by simp [hne]), hi]
  simp only [hm]

theorem prev_search_result_of_some {A : Type} (s : TuiState A) (i : Nat)
    (hne : s.search_results ≠ []) (hi : s.search_result_index = some i)
    (hrange : i < s.search_results.length) :
    ∃ m, s.search_results.get?
          ((i + s.search_results.length - 1) % s.search_results.length) = some m ∧
      prev_search_result s =
        { s with search_result_index :=
                   some ((i + s.search_results.length - 1) % s.search_results.length),
                 tree_widget_state := { s.tree_widget_state with selected := some m } } := by
  have hlen : 0 < s.search_results.length := List.length_pos.mpr hne
  have hidx : (if i = 0 then s.search_results.length - 1 else i - 1) =
      (i + s.search_results.length - 1) % s.search_results.length := by
    split
    · next h0 =>
        subst h0
        simp only [Nat.zero_add]
        exact (Nat.mod_eq_of_lt (by omega)).symm
    · next h0 =>
        have h1 : i + s.search_results.length - 1 =
            (i - 1) + 1 * s.search_results.length := by omega
        rw [h1, Nat.add_mul_mod_self_right]
        exact (Nat.mod_eq_of_lt (by omega)).symm
  have hlt : (i + s.search_results.length - 1) % s.search_results.length <
      s.search_results.length := Nat.mod_lt _ hlen
  obtain ⟨m, hm⟩ : ∃ m, s.search_results.get?
      ((i + s.search_results.length - 1) % s.search_results.length) = some m :=
    ⟨s.search_results.get ⟨_, hlt⟩, List.get?_eq_get hlt⟩
  refine ⟨m, hm, ?_⟩
  unfold prev_search_result
  rw [if_neg (by simp [hne]), hi]
  simp only [hidx, hm]

/-! ### The cursor-range invariant and its preservation. -/

/-- The §3 invariant: a set cursor is an in-range index into the match list. -/
def cursorInv {A : Type} (s : TuiState A) : Prop :=
  ∀ i, s.search_result_index = some i → i < s.search_results.length

theorem cursorInv_dismissHelp {A : Type} {s : TuiState A} (h : cursorInv s) :
    cursorInv (dismissHelp s) := by
  intro i hi
  rw [dismissHelp_search_result_index] at hi
  rw [dismissHelp_search_results]
  exact h i hi

theorem cursorInv_perform_search {A : Type} (s : TuiState A) :
    cursorInv (perform_search s) := by
  by_cases hq : s.search_query = []
  · rw [perform_search_of_empty s hq]
    intro i hi
    exact absurd hi (by simp)
  · cases hr : searchNodes s.search_query 0 s.dependency_tree.nodes with
    | nil =>
        rw [perform_search_of_nil s hq hr]
        intro i hi
        exact absurd hi (by simp)
    | cons m rest =>
        rw [perform_search_of_cons s hq m rest hr]
        intro i hi
        simp only [Option.some.injEq] at hi
        subst hi
        simp

theorem cursorInv_next_search_result {A : Type} {s : TuiState A} (h : cursorInv s) :
    cursorInv (next_search_result s) := by
  by_cases hne : s.search_results = []
  · rw [next_search_result_of_nil s hne]; exact h
  · cases hi : s.search_result_index with
    | none => rw [next_search_result_of_none s hi]; exact h
    | some i =>
        obtain ⟨m, _, heq⟩ := next_search_result_of_some s i hne hi
        rw [heq]
        intro j hj
        simp only [Option.some.injEq] at hj
        subst hj
        exact Nat.mod_lt _ (List.length_pos.mpr hne)

theorem cursorInv_prev_search_result {A : Type} {s : TuiState A} (h : cursorInv s) :
    cursorInv (prev_search_result s) := by
  by_cases hne : s.search_results = []
  · rw [prev_search_result_of_nil s hne]; exact h
  · cases hi : s.search_result_index with
    | none => rw [prev_search_result_of_none s hi]; exact h
    | some i =>
        obtain ⟨m, _, heq⟩ := prev_search_result_of_some s i hne hi (h i hi)
        rw [heq]
        intro j hj
        simp only [Option.some.injEq] at hj
        subst hj
        exact Nat.mod_lt _ (List.length_pos.mpr hne)

theorem cursorInv_clear_search {A : Type} (s : TuiState A) :
    cursorInv (clear_search s) := by
  intro i hi
  exact absurd hi (by simp [clear_search])

theorem cursorInv_normalCharDispatch {A : Type} (ops : WidgetOps A) {s : TuiState A}
    (c : Char) (h : cursorInv s) : cursorInv (normalCharDispatch ops s c) := by
  unfold normalCharDispatch
  split_ifs
  · intro i hi; exact Option.noConfusion hi
  · exact cursorInv_next_search_result h
  · exact cursorInv_prev_search_result h
  · exact cursorInv_clear_search _
  · exact fun i hi => h i hi
  · exact fun i hi => h i hi
  · exact fun i hi => h i hi
  · exact fun i hi => h i hi
  · exact fun i hi => h i hi
  · exact fun i hi => h i hi

theorem cursorInv_handle_key_event {A : Type} (ops : WidgetOps A) {s : TuiState A}
    (e : KeyEvent) (h : cursorInv s) : cursorInv (handle_key_event ops s e) := by
  have hd : cursorInv (dismissHelp s) := cursorInv_dismissHelp h
  unfold handle_key_event
  dsimp only
  split
  · split <;>
      first
        | exact cursorInv_clear_search _
        | exact cursorInv_perform_search _
        | exact cursorInv_next_search_result hd
        | exact cursorInv_prev_search_result hd
        | (split <;>
            first
              | exact cursorInv_perform_search _
              | exact fun i hi => hd i hi)
        | exact fun i hi => hd i hi
  · split <;>
      first
        | exact cursorInv_normalCharDispatch ops _ hd
        | (split <;>
            first
              | exact cursorInv_next_search_result hd
              | exact cursorInv_prev_search_result hd
              | exact fun i hi => hd i hi)
        | exact fun i hi => hd i hi

theorem cursorInv_runEvents {A : Type} (ops : WidgetOps A) :
    ∀ (events : List KeyEvent) (s : TuiState A),
      cursorInv s → cursorInv (runEvents ops s events)
  | [], _, h => h
  | e :: rest, s, h =>
      cursorInv_runEvents ops rest (handle_key_event ops s e)
        (cursorInv_handle_key_event ops e h)

theorem cursorInv_initState {A : Type} (tree : DependencyTree) (w0 : TreeWidgetState A) :
    cursorInv (initState tree w0) :=
  fun _ hi => Option.noConfusion hi

/-! ### The claims. -/

/-- C3: for every node name and every non-empty query, the match predicate
returns true iff the lower-cased query characters form an ordered, not
necessarily contiguous subsequence of the lower-cased name characters. -/
theorem match_iff_subsequence (q n : List Char) (_hq : q ≠ []) :
    is_subsequence_match q n = true ↔
      List.Sublist (q.map Char.toLower) (n.map Char.toLower) := by
  unfold is_subsequence_match
  rw [List.isEmpty_iff]
  exact consumeGreedy_eq_nil_iff _ _

/-- Witness for C3: the query "ab" is non-empty, it matches "Alpha-Beta" and
it matches "Zab". -/
theorem match_iff_subsequence_witness :
    is_subsequence_match ['a', 'b'] ['A', 'l', 'p', 'h', 'a', '-', 'B', 'e', 't', 'a'] = true ∧
    is_subsequence_match ['a', 'b'] ['Z', 'a', 'b'] = true :=
  ⟨(match_iff_subsequence ['a', 'b'] ['A', 'l', 'p', 'h', 'a', '-', 'B', 'e', 't', 'a']
      (by decide)).mpr (by decide),
   (match_iff_subsequence ['a', 'b'] ['Z', 'a', 'b'] (by decide)).mpr (by decide)⟩

/-- C4: recomputing the search with an empty query empties the match list and
clears the cursor; with a non-empty query the match list holds exactly the
ids of the nodes whose names satisfy the match predicate, in storage (index)
order, the cursor becomes `some 0` and the widget selection the first match
when the list is non-empty, and the cursor becomes `none` when it is empty. -/
theorem perform_search_spec {A : Type} (s : TuiState A) :
    (s.search_query = [] →
       perform_search s = { s with search_results := [], search_result_index := none })
    ∧ (s.search_query ≠ [] →
       (perform_search s).search_results.Pairwise (· < ·)
       ∧ (∀ j, j ∈ (perform_search s).search_results ↔
            ∃ node, s.dependency_tree.nodes.get? j = some node ∧
              is_subsequence_match s.search_query node.name = true)
       ∧ ((perform_search s).search_results = [] →
            (perform_search s).search_result_index = none ∧
            (perform_search s).tree_widget_state = s.tree_widget_state)
       ∧ (∀ m rest, (perform_search s).search_results = m :: rest →
            (perform_search s).search_result_index = some 0 ∧
            (perform_search s).tree_widget_state.selected = some m)) := by
  constructor
  · exact perform_search_of_empty s
  · intro hq
    have hres := perform_search_results_eq s hq
    refine ⟨?_, ?_, ?_, ?_⟩
    · rw [hres]; exact searchNodes_pairwise _ _ _
    · intro j
      rw [hres, mem_searchNodes]
      constructor
      · rintro ⟨d, node, hj, hg, hm⟩
        subst hj
        rw [Nat.zero_add]
        exact ⟨node, hg, hm⟩
      · rintro ⟨node, hg, hm⟩
        exact ⟨j, node, by omega, hg, hm⟩
    · intro hnil
      rw [hres] at hnil
      rw [perform_search_of_nil s hq hnil]
      exact ⟨rfl, rfl⟩
    · intro m rest hcons
      rw [hres] at hcons
      rw [perform_search_of_cons s hq m rest hcons]
      exact ⟨rfl, rfl⟩

/-- Witness for C4: on the two-node tree ["b", "a"], recomputing with query
"a" yields the sorted match list, and recomputing the same tree with an
empty query clears results and cursor. -/
theorem perform_search_spec_witness :
    (perform_search (⟨true, ⟨[⟨['b']⟩, ⟨['a']⟩]⟩, ⟨none, ()⟩, false, true, ['a'], [], none⟩ :
        TuiState Unit)).search_results.Pairwise (· < ·) ∧
    perform_search (⟨true, ⟨[⟨['b']⟩, ⟨['a']⟩]⟩, ⟨none, ()⟩, false, true, [], [5], some 2⟩ :
        TuiState Unit) =
      ⟨true, ⟨[⟨['b']⟩, ⟨['a']⟩]⟩, ⟨none, ()⟩, false, true, [], [], none⟩ :=
  ⟨((perform_search_spec (⟨true, ⟨[⟨['b']⟩, ⟨['a']⟩]⟩, ⟨none, ()⟩, false, true, ['a'], [], none⟩ :
        TuiState Unit)).2 (by decide)).1,
   (perform_search_spec (⟨true, ⟨[⟨['b']⟩, ⟨['a']⟩]⟩, ⟨none, ()⟩, false, true, [], [5], some 2⟩ :
        TuiState Unit)).1 rfl⟩

/-- C5: pressing '/' in Normal mode enters search mode, resets the query to
empty and the cursor to none, and leaves the previously computed match list
unchanged. -/
theorem slash_enters_search {A : Type} (ops : WidgetOps A) (s : TuiState A) (m : Nat)
    (h : s.search_active = false) :
    (handle_key_event ops s ⟨.char '/', m⟩).search_active = true ∧
    (handle_key_event ops s ⟨.char '/', m⟩).search_query = [] ∧
    (handle_key_event ops s ⟨.char '/', m⟩).search_result_index = none ∧
    (handle_key_event ops s ⟨.char '/', m⟩).search_results = s.search_results := by
  obtain ⟨r, dt, w, sh, sa, q, res, idx⟩ := s
  have h' : sa = false := h
  subst h'
  cases sh <;> exact ⟨rfl, rfl, rfl, rfl⟩

/-- Witness for C5 at a Normal-mode state with stale matches `[7]`. -/
theorem slash_enters_search_witness :
    (handle_key_event idOps (⟨true, ⟨[]⟩, ⟨none, ()⟩, false, false, ['x'], [7], some 0⟩ :
        TuiState Unit) ⟨.char '/', 0⟩).search_active = true ∧
    (handle_key_event idOps (⟨true, ⟨[]⟩, ⟨none, ()⟩, false, false, ['x'], [7], some 0⟩ :
        TuiState Unit) ⟨.char '/', 0⟩).search_query = [] ∧
    (handle_key_event idOps (⟨true, ⟨[]⟩, ⟨none, ()⟩, false, false, ['x'], [7], some 0⟩ :
        TuiState Unit) ⟨.char '/', 0⟩).search_result_index = none ∧
    (handle_key_event idOps (⟨true, ⟨[]⟩, ⟨none, ()⟩, false, false, ['x'], [7], some 0⟩ :
        TuiState Unit) ⟨.char '/', 0⟩).search_results = [7] :=
  slash_enters_search idOps
    (⟨true, ⟨[]⟩, ⟨none, ()⟩, false, false, ['x'], [7], some 0⟩ : TuiState Unit) 0 rfl

/-- C6: clearing the search ('c' in Normal mode, or Escape while searching)
resets all four search fields in the same key event — `search_active` to
false, `search_query` to empty, `search_matches` to empty, `search_cursor`
to none — and leaves the tree widget's state (hence its selection)
unchanged. -/
theorem clear_resets_all_fields {A : Type} (ops : WidgetOps A) (s : TuiState A) (m : Nat) :
    (s.search_active = false →
       (handle_key_event ops s ⟨.char 'c', m⟩).search_active = false ∧
       (handle_key_event ops s ⟨.char 'c', m⟩).search_query = [] ∧
       (handle_key_event ops s ⟨.char 'c', m⟩).search_results = [] ∧
       (handle_key_event ops s ⟨.char 'c', m⟩).search_result_index = none ∧
       (handle_key_event ops s ⟨.char 'c', m⟩).tree_widget_state = s.tree_widget_state)
    ∧ (s.search_active = true →
       (handle_key_event ops s ⟨.esc, m⟩).search_active = false ∧
       (handle_key_event ops s ⟨.esc, m⟩).search_query = [] ∧
       (handle_key_event ops s ⟨.esc, m⟩).search_results = [] ∧
       (handle_key_event ops s ⟨.esc, m⟩).search_result_index = none ∧
       (handle_key_event ops s ⟨.esc, m⟩).tree_widget_state = s.tree_widget_state) := by
  obtain ⟨r, dt, w, sh, sa, q, res, idx⟩ := s
  constructor
  · intro h
    have h' : sa = false := h
    subst h'
    cases sh <;> exact ⟨rfl, rfl, rfl, rfl, rfl⟩
  · intro h
    have h' : sa = true := h
    subst h'
    cases sh <;> exact ⟨rfl, rfl, rfl, rfl, rfl⟩

/-- Witness for C6: 'c' clears a Normal-mode state and Escape clears a
Searching-mode state, leaving the widget state intact. -/
theorem clear_resets_all_fields_witness :
    ((handle_key_event idOps (⟨true, ⟨[]⟩, ⟨some 4, ()⟩, false, false, ['x'], [7], some 0⟩ :
        TuiState Unit) ⟨.char 'c', 0⟩).search_active = false ∧
     (handle_key_event idOps (⟨true, ⟨[]⟩, ⟨some 4, ()⟩, false, false, ['x'], [7], some 0⟩ :
        TuiState Unit) ⟨.char 'c', 0⟩).search_query = [] ∧
     (handle_key_event idOps (⟨true, ⟨[]⟩, ⟨some 4, ()⟩, false, false, ['x'], [7], some 0⟩ :
        TuiState Unit) ⟨.char 'c', 0⟩).search_results = [] ∧
     (handle_key_event idOps (⟨true, ⟨[]⟩, ⟨some 4, ()⟩, false, false, ['x'], [7], some 0⟩ :
        TuiState Unit) ⟨.char 'c', 0⟩).search_result_index = none ∧
     (handle_key_event idOps (⟨true, ⟨[]⟩, ⟨some 4, ()⟩, false, false, ['x'], [7], some 0⟩ :
        TuiState Unit) ⟨.char 'c', 0⟩).tree_widget_state = ⟨some 4, ()⟩) ∧
    ((handle_key_event idOps (⟨true, ⟨[]⟩, ⟨some 4, ()⟩, false, true, ['x'], [7], some 0⟩ :
        TuiState Unit) ⟨.esc, 0⟩).search_active = false ∧
     (handle_key_event idOps (⟨true, ⟨[]⟩, ⟨some 4, ()⟩, false, true, ['x'], [7], some 0⟩ :
        TuiState Unit) ⟨.esc, 0⟩).search_query = [] ∧
     (handle_key_event idOps (⟨true, ⟨[]⟩, ⟨some 4, ()⟩, false, true, ['x'], [7], some 0⟩ :
        TuiState Unit) ⟨.esc, 0⟩).search_results = [] ∧
     (handle_key_event idOps (⟨true, ⟨[]⟩, ⟨some 4, ()⟩, false, true, ['x'], [7], some 0⟩ :
        TuiState Unit) ⟨.esc, 0⟩).search_result_index = none ∧
     (handle_key_event idOps (⟨true, ⟨[]⟩, ⟨some 4, ()⟩, false, true, ['x'], [7], some 0⟩ :
        TuiState Unit) ⟨.esc, 0⟩).tree_widget_state = ⟨some 4, ()⟩) :=
  ⟨(clear_resets_all_fields idOps
      (⟨true, ⟨[]⟩, ⟨some 4, ()⟩, false, false, ['x'], [7], some 0⟩ : TuiState Unit) 0).1 rfl,
   (clear_resets_all_fields idOps
      (⟨true, ⟨[]⟩, ⟨some 4, ()⟩, false, true, ['x'], [7], some 0⟩ : TuiState Unit) 0).2 rfl⟩

/-- C8: pressing '?' in Normal mode while the help overlay is visible leaves
the whole state unchanged: the pre-step dismisses the overlay and the
dispatch re-toggles it on. -/
theorem help_toggle_noop_when_visible {A : Type} (ops : WidgetOps A) (s : TuiState A)
    (m : Nat) (h1 : s.search_active = false) (h2 : s.show_help = true) :
    handle_key_event ops s ⟨.char '?', m⟩ = s := by
  obtain ⟨r, dt, w, sh, sa, q, res, idx⟩ := s
  have h1' : sa = false := h1
  have h2' : sh = true := h2
  subst h1'
  subst h2'
  rfl

/-- Witness for C8 at a concrete Normal-mode state with the help visible. -/
theorem help_toggle_noop_when_visible_witness :
    handle_key_event idOps (⟨true, ⟨[⟨['a']⟩]⟩, ⟨some 0, ()⟩, true, false, ['x'], [0], some 0⟩ :
        TuiState Unit) ⟨.char '?', 3⟩ =
      ⟨true, ⟨[⟨['a']⟩]⟩, ⟨some 0, ()⟩, true, false, ['x'], [0], some 0⟩ :=
  help_toggle_noop_when_visible idOps
    (⟨true, ⟨[⟨['a']⟩]⟩, ⟨some 0, ()⟩, true, false, ['x'], [0], some 0⟩ : TuiState Unit) 3 rfl rfl

/-- C10: the transition performed by `handle_key_event` depends only on the
key code, never on the modifier set: the same code with any two modifier
sets produces the same resulting state. -/
theorem modifiers_do_not_matter {A : Type} (ops : WidgetOps A) (s : TuiState A)
    (c : KeyCode) (m1 m2 : Nat) :
    handle_key_event ops s ⟨c, m1⟩ = handle_key_event ops s ⟨c, m2⟩ := by
  unfold handle_key_event
  dsimp only
  split <;> cases c <;> rfl

theorem normalCharDispatch_running {A : Type} (ops : WidgetOps A) (s : TuiState A)
    (c : Char) (hc : c ≠ 'q') :
    (normalCharDispatch ops s c).running = s.running := by
  unfold normalCharDispatch
  split_ifs
  all_goals first | rfl | simp

/-- C7: the 'q' key sets `running` to false exactly when issued in Normal
mode; while searching, 'q' is appended to the query and `running` is
unchanged; and no other key event ever changes `running`. -/
theorem quit_only_in_normal_mode {A : Type} (ops : WidgetOps A) (s : TuiState A) (m : Nat) :
    (s.search_active = false → (handle_key_event ops s ⟨.char 'q', m⟩).running = false)
    ∧ (s.search_active = true →
         (handle_key_event ops s ⟨.char 'q', m⟩).running = s.running ∧
         (handle_key_event ops s ⟨.char 'q', m⟩).search_query = s.search_query ++ ['q'])
    ∧ (∀ e : KeyEvent, ¬ (s.search_active = false ∧ e.code = .char 'q') →
         (handle_key_event ops s e).running = s.running) := by
  refine ⟨?_, ?_, ?_⟩
  · intro h
    obtain ⟨r, dt, w, sh, sa, q, res, idx⟩ := s
    have h' : sa = false := h
    subst h'
    cases sh <;> rfl
  · intro h
    obtain ⟨r, dt, w, sh, sa, q, res, idx⟩ := s
    have h' : sa = true := h
    subst h'
    cases sh <;>
      exact ⟨(perform_search_running _).trans rfl, (perform_search_search_query _).trans rfl⟩
  · rintro ⟨code, em⟩ he
    obtain ⟨r, dt, w, sh, sa, q, res, idx⟩ := s
    cases sa
    · have hcq : code = KeyCode.char 'q' → False := fun hc => he ⟨rfl, hc⟩
      cases sh <;> cases code
      all_goals try rfl
      all_goals
        rename_i c
      all_goals
        have hc : c ≠ 'q' := fun hcc => hcq (by rw [hcc])
      all_goals
        exact (normalCharDispatch_running ops _ c hc).trans rfl
    · cases sh <;> cases code
      all_goals try rfl
      all_goals try exact (perform_search_running _).trans rfl
      all_goals try exact (next_search_result_running _).trans rfl
      all_goals try exact (prev_search_result_running _).trans rfl
      all_goals
        rename_i c
      all_goals
        by_cases hc : c = '/'
      · subst hc; rfl
      · show (if c ≠ '/' then
                perform_search ⟨r, dt, w, false, true, q ++ [c], res, idx⟩
              else ⟨r, dt, w, false, true, q, res, idx⟩).running = r
        rw [if_pos hc]
        exact (perform_search_running _).trans rfl
      · subst hc; rfl
      · show (if c ≠ '/' then
                perform_search ⟨r, dt, w, false, true, q ++ [c], res, idx⟩
              else ⟨r, dt, w, false, true, q, res, idx⟩).running = r
        rw [if_pos hc]
        exact (perform_search_running _).trans rfl

/-- Witness for C7: 'q' quits in Normal mode, is appended to the query while
searching, and 'x' leaves `running` unchanged. -/
theorem quit_only_in_normal_mode_witness :
    (handle_key_event idOps (⟨true, ⟨[]⟩, ⟨none, ()⟩, false, false, [], [], none⟩ :
        TuiState Unit) ⟨.char 'q', 0⟩).running = false ∧
    ((handle_key_event idOps (⟨true, ⟨[]⟩, ⟨none, ()⟩, false, true, ['a'], [], none⟩ :
        TuiState Unit) ⟨.char 'q', 0⟩).running = true ∧
     (handle_key_event idOps (⟨true, ⟨[]⟩, ⟨none, ()⟩, false, true, ['a'], [], none⟩ :
        TuiState Unit) ⟨.char 'q', 0⟩).search_query = ['a', 'q']) ∧
    (handle_key_event idOps (⟨true, ⟨[]⟩, ⟨none, ()⟩, false, false, [], [], none⟩ :
        TuiState Unit) ⟨.char 'x', 0⟩).running = true :=
  ⟨(quit_only_in_normal_mode idOps
      (⟨true, ⟨[]⟩, ⟨none, ()⟩, false, false, [], [], none⟩ : TuiState Unit) 0).1 rfl,
   (quit_only_in_normal_mode idOps
      (⟨true, ⟨[]⟩, ⟨none, ()⟩, false, true, ['a'], [], none⟩ : TuiState Unit) 0).2.1 rfl,
   (quit_only_in_normal_mode idOps
      (⟨true, ⟨[]⟩, ⟨none, ()⟩, false, false, [], [], none⟩ : TuiState Unit) 0).2.2
     ⟨.char 'x', 0⟩ (by decide)⟩

/-- C9: in every state reachable from the initial state by any sequence of
key events, a set search cursor `some i` is an in-range index into the match
list (`i < len search_matches`), for every widget environment, tree and
initial widget state. -/
theorem cursor_index_in_range {A : Type} (ops : WidgetOps A) (tree : DependencyTree)
    (w0 : TreeWidgetState A) (events : List KeyEvent) (i : Nat)
    (h : (runEvents ops (initState tree w0) events).search_result_index = some i) :
    i < (runEvents ops (initState tree w0) events).search_results.length :=
  cursorInv_runEvents ops events (initState tree w0) (cursorInv_initState tree w0) i h

/-- Witness for C9: after typing `/` then `a` on a one-node tree named "a",
the cursor is `some 0` and the bound `0 < 1` follows from the theorem. -/
theorem cursor_index_in_range_witness :
    (runEvents idOps (initState (⟨[⟨['a']⟩]⟩ : DependencyTree) ⟨none, ()⟩)
        [⟨.char '/', 0⟩, ⟨.char 'a', 0⟩]).search_result_index = some 0 ∧
    0 < (runEvents idOps (initState (⟨[⟨['a']⟩]⟩ : DependencyTree) ⟨none, ()⟩)
        [⟨.char '/', 0⟩, ⟨.char 'a', 0⟩]).search_results.length :=
  ⟨by decide,
   cursor_index_in_range idOps (⟨[⟨['a']⟩]⟩ : DependencyTree) ⟨none, ()⟩
     [⟨.char '/', 0⟩, ⟨.char 'a', 0⟩] 0 (by decide)⟩

/-- C2 counterexample: on the one-node tree named "a", the reachable key
sequence `/`, `a`, Enter, `/` ends in a state with `search_cursor = none`
but `search_matches = [0]` non-empty, refuting the claimed equivalence
("None iff empty"): `/` clears the cursor while preserving the matches. -/
theorem cursor_none_iff_empty_matches_cex :
    (runEvents idOps (initState (⟨[⟨['a']⟩]⟩ : DependencyTree) ⟨none, ()⟩)
        [⟨.char '/', 0⟩, ⟨.char 'a', 0⟩, ⟨.enter, 0⟩, ⟨.char '/', 0⟩]).search_result_index
      = none ∧
    (runEvents idOps (initState (⟨[⟨['a']⟩]⟩ : DependencyTree) ⟨none, ()⟩)
        [⟨.char '/', 0⟩, ⟨.char 'a', 0⟩, ⟨.enter, 0⟩, ⟨.char '/', 0⟩]).search_results
      = [0] := by
  constructor <;> decide

/-- C2 (amended): in every state reachable from the initial state by any
sequence of key events, if `search_matches` is empty then `search_cursor` is
`None`.  The converse implication is refuted by the counterexample. -/
theorem empty_matches_cursor_none {A : Type} (ops : WidgetOps A) (tree : DependencyTree)
    (w0 : TreeWidgetState A) (events : List KeyEvent)
    (h : (runEvents ops (initState tree w0) events).search_results = []) :
    (runEvents ops (initState tree w0) events).search_result_index = none := by
  cases hidx : (runEvents ops (initState tree w0) events).search_result_index with
  | none => rfl
  | some i =>
      have hlt := cursorInv_runEvents ops events (initState tree w0)
        (cursorInv_initState tree w0) i hidx
      rw [h] at hlt
      exact absurd hlt (by simp)

/-- Witness for C2 (amended): the empty event sequence has no matches and no
cursor. -/
theorem empty_matches_cursor_none_witness :
    (runEvents idOps (initState (⟨[]⟩ : DependencyTree)
        (⟨none, ()⟩ : TreeWidgetState Unit)) []).search_result_index = none :=
  empty_matches_cursor_none idOps (⟨[]⟩ : DependencyTree) ⟨none, ()⟩ [] rfl

/-- C1 counterexample: the reachable state after `/`, `a`, Enter, `/` on the
one-node tree named "a" has a non-empty match list `[0]` but cursor `none`,
and both advance operations are no-ops on it — refuting "advance is a no-op
only when `search_matches` is empty". -/
theorem advance_noop_cex :
    (runEvents idOps (initState (⟨[⟨['a']⟩]⟩ : DependencyTree) ⟨none, ()⟩)
        [⟨.char '/', 0⟩, ⟨.char 'a', 0⟩, ⟨.enter, 0⟩, ⟨.char '/', 0⟩]).search_results ≠ [] ∧
    next_search_result (runEvents idOps (initState (⟨[⟨['a']⟩]⟩ : DependencyTree) ⟨none, ()⟩)
        [⟨.char '/', 0⟩, ⟨.char 'a', 0⟩, ⟨.enter, 0⟩, ⟨.char '/', 0⟩])
      = runEvents idOps (initState (⟨[⟨['a']⟩]⟩ : DependencyTree) ⟨none, ()⟩)
        [⟨.char '/', 0⟩, ⟨.char 'a', 0⟩, ⟨.enter, 0⟩, ⟨.char '/', 0⟩] ∧
    prev_search_result (runEvents idOps (initState (⟨[⟨['a']⟩]⟩ : DependencyTree) ⟨none, ()⟩)
        [⟨.char '/', 0⟩, ⟨.char 'a', 0⟩, ⟨.enter, 0⟩, ⟨.char '/', 0⟩])
      = runEvents idOps (initState (⟨[⟨['a']⟩]⟩ : DependencyTree) ⟨none, ()⟩)
        [⟨.char '/', 0⟩, ⟨.char 'a', 0⟩, ⟨.enter, 0⟩, ⟨.char '/', 0⟩] := by
  refine ⟨by decide, by decide, by decide⟩

/-- C1 (amended): advancing is a no-op when `search_matches` is empty or when
`search_cursor` is `None` (the latter is reachable, see the counterexample);
when the cursor is `some i` with `i` in range (as every reachable state has),
next moves it to `(i+1) mod len`, previous to `(i+len-1) mod len`, each
setting the widget selection to the match at the new cursor; Down/Up while
searching and 'n'/'N' in Normal mode dispatch to these operations. -/
theorem advance_cyclic_amended {A : Type} (ops : WidgetOps A) (s : TuiState A) (m : Nat) :
    (s.search_results = [] → next_search_result s = s ∧ prev_search_result s = s)
    ∧ (s.search_result_index = none → next_search_result s = s ∧ prev_search_result s = s)
    ∧ (∀ i, s.search_result_index = some i → i < s.search_results.length →
        (next_search_result s).search_result_index
            = some ((i + 1) % s.search_results.length) ∧
        (next_search_result s).tree_widget_state.selected
            = s.search_results.get? ((i + 1) % s.search_results.length) ∧
        (prev_search_result s).search_result_index
            = some ((i + s.search_results.length - 1) % s.search_results.length) ∧
        (prev_search_result s).tree_widget_state.selected
            = s.search_results.get? ((i + s.search_results.length - 1) % s.search_results.length))
    ∧ (s.search_active = true →
        handle_key_event ops s ⟨.down, m⟩ = next_search_result (dismissHelp s) ∧
        handle_key_event ops s ⟨.up, m⟩ = prev_search_result (dismissHelp s))
    ∧ (s.search_active = false →
        handle_key_event ops s ⟨.char 'n', m⟩ = next_search_result (dismissHelp s) ∧
        handle_key_event ops s ⟨.char 'N', m⟩ = prev_search_result (dismissHelp s)) := by
  refine ⟨?_, ?_, ?_, ?_, ?_⟩
  · intro h
    exact ⟨next_search_result_of_nil s h, prev_search_result_of_nil s h⟩
  · intro h
    exact ⟨next_search_result_of_none s h, prev_search_result_of_none s h⟩
  · intro i hi hlt
    have hne : s.search_results ≠ [] := by
      intro hnil
      rw [hnil] at hlt
      exact absurd hlt (by simp)
    obtain ⟨mn, hmn, hnext⟩ := next_search_result_of_some s i hne hi
    obtain ⟨mp, hmp, hprev⟩ := prev_search_result_of_some s i hne hi hlt
    rw [hnext, hprev]
    exact ⟨rfl, hmn.symm, rfl, hmp.symm⟩
  · intro h
    obtain ⟨r, dt, w, sh, sa, q, res, idx⟩ := s
    have h' : sa = true := h
    subst h'
    cases sh <;> exact ⟨rfl, rfl⟩
  · intro h
    obtain ⟨r, dt, w, sh, sa, q, res, idx⟩ := s
    have h' : sa = false := h
    subst h'
    cases sh <;> exact ⟨rfl, rfl⟩

/-- Witness for C1 (amended): on a state with matches `[3, 5]` and cursor
`some 0`, next moves the cursor to `some 1` and selects node 5. -/
theorem advance_cyclic_amended_witness :
    (next_search_result (⟨true, ⟨[]⟩, ⟨none, ()⟩, false, true, [], [3, 5], some 0⟩ :
        TuiState Unit)).search_result_index = some 1 ∧
    (next_search_result (⟨true, ⟨[]⟩, ⟨none, ()⟩, false, true, [], [3, 5], some 0⟩ :
        TuiState Unit)).tree_widget_state.selected = some 5 :=
  And.intro
    ((advance_cyclic_amended idOps
        (⟨true, ⟨[]⟩, ⟨none, ()⟩, false, true, [], [3, 5], some 0⟩ : TuiState Unit)
        0).2.2.1 0 rfl (by decide)).1
    ((advance_cyclic_amended idOps
        (⟨true, ⟨[]⟩, ⟨none, ()⟩, false, true, [], [3, 5], some 0⟩ : TuiState Unit)
        0).2.2.1 0 rfl (by decide)).2.1

end CargoTreeTui
